import Mathlib

/-!
# Verification of the maintenance-backend query gateway

Shallow embedding of `src/main.py`, a FastAPI + psycopg2 read-only query
gateway over four PostgreSQL tables (`dead_nodes`, `outlier_data`,
`frequency_analysis`, `nan_analysis`).

Modelling decisions, each taken from the source:

* A table is a `List` of row structures carrying the columns the queries
  mention (`SELECT *` returns the row itself).
* Timestamps and `NOW()` are `Int` seconds; the SQL
  `timestamp >= NOW() - INTERVAL 'h hours'` becomes
  `now - 3600*h ≤ r.timestamp` (psycopg2 substitutes `%s` inside the
  quoted interval literal, so the parameterisation works as written).
* SQL `ORDER BY id DESC` is `List.insertionSort` with the relation
  `b.id ≤ a.id`; `LIMIT n` is `List.take n`; `DISTINCT` is `List.dedup`;
  the `WHERE` clause is `List.filter` with the row predicate.
* `psycopg2.connect` and `cursor.execute` can each fail; the two possible
  failure points of a request are the `DBOutcome` argument of
  `execute_query`.  `HTTPException` carries `status_code` and `detail`
  exactly as raised by the Python code.
* FastAPI declares `node_id : str` (etc.) with no default, which makes the
  query parameter required: an absent parameter is rejected with a 422
  validation error before the handler body runs, while any supplied
  string — including the empty string — is passed through to the handler.
  A required parameter is therefore an `Option String` (`none` = absent).
* Connection lifecycle is observable through a `ConnTrace` counting
  connections opened, queries executed and connections closed.
-/

/-- One row of `public.dead_nodes`: surrogate key `id`, filter columns
`node_id` and `vertical_name` (nullable), and the `timestamp` column. -/
structure DeadNodeRow where
  id : Nat
  node_id : String
  vertical_name : Option String
  timestamp : Int
  deriving DecidableEq, Repr

/-- One row of `public.outlier_data`. -/
structure OutlierRow where
  node_id : String
  timestamp_column : Int
  deriving DecidableEq, Repr

/-- One row of `frequency_analysis`. -/
structure FreqRow where
  node : String
  timestamp : Int
  deriving DecidableEq, Repr

/-- One row of `nan_analysis`. -/
structure NanRow where
  node : String
  timestamp_column : Int
  deriving DecidableEq, Repr

/-- The error raised by the service: FastAPI `HTTPException(status_code, detail)`. -/
structure HTTPException where
  status_code : Nat
  detail : String
  deriving DecidableEq, Repr

/-- Outcome of the two infrastructure steps of one request:
`psycopg2.connect` may fail, then `cursor.execute` may fail, else both
succeed. -/
inductive DBOutcome where
  | connFail (msg : String)
  | queryFail (msg : String)
  | ok
  deriving DecidableEq, Repr

/-- Observable connection lifecycle of one request: how many connections
were opened, how many queries were executed on them, how many were closed. -/
structure ConnTrace where
  opened : Nat
  queried : Nat
  closed : Nat
  deriving DecidableEq, Repr

/-- `get_db_connection` (src/main.py:22): returns a connection, or raises
`HTTPException(500, "Database connection error: " + str(e))` when
`psycopg2.connect` fails. -/
def get_db_connection (o : DBOutcome) : Except HTTPException Unit :=
  match o with
  | .connFail msg => .error ⟨500, "Database connection error: " ++ msg⟩
  | _ => .ok ()

/-- `execute_query` (src/main.py:36): opens a fresh connection, executes the
query once, returns all fetched rows, and closes the connection in a
`finally` block; a query failure is re-raised as
`HTTPException(500, "Query execution error: " + str(e))`.
`rows` is the result set the SQL statement produces when execution
succeeds. -/
def execute_query {ρ : Type} (o : DBOutcome) (rows : List ρ) :
    Except HTTPException (List ρ) × ConnTrace :=
  match get_db_connection o with
  | .error e => (.error e, ⟨0, 0, 0⟩)
  | .ok _ =>
    match o with
    | .queryFail msg => (.error ⟨500, "Query execution error: " ++ msg⟩, ⟨1, 1, 1⟩)
    | _ => (.ok rows, ⟨1, 1, 1⟩)

/-- `ORDER BY id DESC` on `dead_nodes`. -/
def idDescRel (a b : DeadNodeRow) : Prop := b.id ≤ a.id

instance : DecidableRel idDescRel :=
  fun a b => inferInstanceAs (Decidable (b.id ≤ a.id))

instance : IsTotal DeadNodeRow idDescRel := ⟨fun a b => le_total b.id a.id⟩

instance : IsTrans DeadNodeRow idDescRel := ⟨fun _ _ _ h1 h2 => le_trans h2 h1⟩

/-- The SQL of `/dead_nodes/latest`:
`SELECT * FROM public.dead_nodes WHERE node_id = %s ORDER BY id DESC LIMIT 1`. -/
def latestDeadNodeQuery (db : List DeadNodeRow) (nid : String) : List DeadNodeRow :=
  ((db.filter (fun r => r.node_id == nid)).insertionSort idDescRel).take 1

/-- Handler of `GET /dead_nodes/latest` (src/main.py:53): requires
`node_id`; 404 when the query returns no row, else the single row. -/
def get_latest_dead_node (o : DBOutcome) (db : List DeadNodeRow)
    (node_id : Option String) : Except HTTPException DeadNodeRow × ConnTrace :=
  match node_id with
  | none => (.error ⟨422, "Field required: node_id"⟩, ⟨0, 0, 0⟩)
  | some nid =>
    let qr := execute_query o (latestDeadNodeQuery db nid)
    match qr.1 with
    | .error e => (.error e, qr.2)
    | .ok [] => (.error ⟨404, "No data found for node_id: " ++ nid⟩, qr.2)
    | .ok (r :: _) => (.ok r, qr.2)

/-- The SQL of `/dead_nodes/verticals`:
`SELECT DISTINCT vertical_name FROM public.dead_nodes`. -/
def verticalsQuery (db : List DeadNodeRow) : List (Option String) :=
  (db.map (·.vertical_name)).dedup

/-- The truthiness test of the list comprehension
`[row["vertical_name"] for row in result if row["vertical_name"]]`:
Python keeps a value iff it is neither `None` nor the empty string. -/
def truthyVertical (v : Option String) : Option String :=
  match v with
  | none => none
  | some s => if s = "" then none else some s

/-- Handler of `GET /dead_nodes/verticals` (src/main.py:66): runs the
distinct query, then keeps only truthy values. -/
def get_vertical_names (o : DBOutcome) (db : List DeadNodeRow) :
    Except HTTPException (List String) × ConnTrace :=
  let qr := execute_query o (verticalsQuery db)
  match qr.1 with
  | .error e => (.error e, qr.2)
  | .ok vs => (.ok (vs.filterMap truthyVertical), qr.2)

/-- The `WHERE` predicate of `/dead_nodes/by_vertical`:
`vertical_name = %s AND timestamp >= NOW() - INTERVAL '%s hours'`. -/
def deadNodeInWindow (now : Int) (vname : String) (hours : Int)
    (r : DeadNodeRow) : Bool :=
  r.vertical_name == some vname && decide (now - 3600 * hours ≤ r.timestamp)

/-- The SQL of `/dead_nodes/by_vertical`: filter, `ORDER BY id DESC`,
`LIMIT 100`. -/
def deadNodesByVerticalQuery (db : List DeadNodeRow) (now : Int)
    (vname : String) (hours : Int) : List DeadNodeRow :=
  ((db.filter (deadNodeInWindow now vname hours)).insertionSort idDescRel).take 100

/-- Handler of `GET /dead_nodes/by_vertical` (src/main.py:73): requires
`vertical_name`; `hours` defaults to 3 at the HTTP layer and arrives here
as a plain integer. -/
def get_dead_nodes_by_vertical (o : DBOutcome) (db : List DeadNodeRow)
    (now : Int) (vertical_name : Option String) (hours : Int) :
    Except HTTPException (List DeadNodeRow) × ConnTrace :=
  match vertical_name with
  | none => (.error ⟨422, "Field required: vertical_name"⟩, ⟨0, 0, 0⟩)
  | some v => execute_query o (deadNodesByVerticalQuery db now v hours)

/-- The `WHERE` predicate of `/outlier_data`:
`node_id = %s AND timestamp_column >= NOW() - INTERVAL '%s hours'`. -/
def outlierInWindow (now : Int) (nid : String) (hours : Int)
    (r : OutlierRow) : Bool :=
  r.node_id == nid && decide (now - 3600 * hours ≤ r.timestamp_column)

/-- The SQL of `/outlier_data`: filter only, no ordering, no cap. -/
def outlierDataQuery (db : List OutlierRow) (now : Int) (nid : String)
    (hours : Int) : List OutlierRow :=
  db.filter (outlierInWindow now nid hours)

/-- Handler of `GET /outlier_data` (src/main.py:89): requires `node_id`;
`hours` defaults to 24 at the HTTP layer. -/
def get_outlier_data (o : DBOutcome) (db : List OutlierRow) (now : Int)
    (node_id : Option String) (hours : Int) :
    Except HTTPException (List OutlierRow) × ConnTrace :=
  match node_id with
  | none => (.error ⟨422, "Field required: node_id"⟩, ⟨0, 0, 0⟩)
  | some nid => execute_query o (outlierDataQuery db now nid hours)

/-- The `WHERE` predicate of `/frequency_analysis`:
`node = %s AND timestamp >= NOW() - INTERVAL '%s hours'`. -/
def freqInWindow (now : Int) (node : String) (hours : Int)
    (r : FreqRow) : Bool :=
  r.node == node && decide (now - 3600 * hours ≤ r.timestamp)

/-- The SQL of `/frequency_analysis`: filter only, no ordering, no cap. -/
def frequencyAnalysisQuery (db : List FreqRow) (now : Int) (node : String)
    (hours : Int) : List FreqRow :=
  db.filter (freqInWindow now node hours)

/-- Handler of `GET /frequency_analysis` (src/main.py:103): requires
`node`; `hours` defaults to 24 at the HTTP layer. -/
def get_frequency_analysis (o : DBOutcome) (db : List FreqRow) (now : Int)
    (node : Option String) (hours : Int) :
    Except HTTPException (List FreqRow) × ConnTrace :=
  match node with
  | none => (.error ⟨422, "Field required: node"⟩, ⟨0, 0, 0⟩)
  | some n => execute_query o (frequencyAnalysisQuery db now n hours)

/-- The `WHERE` predicate of `/nan_analysis`:
`node = %s AND timestamp_column >= NOW() - INTERVAL '%s hours'`. -/
def nanInWindow (now : Int) (node : String) (hours : Int)
    (r : NanRow) : Bool :=
  r.node == node && decide (now - 3600 * hours ≤ r.timestamp_column)

/-- The SQL of `/nan_analysis`: filter, then `LIMIT %s` with the
caller-supplied limit bound directly into the statement. -/
def nanAnalysisQuery (db : List NanRow) (now : Int) (node : String)
    (hours : Int) (lim : Nat) : List NanRow :=
  (db.filter (nanInWindow now node hours)).take lim

/-- Handler of `GET /nan_analysis` (src/main.py:117): requires `node`;
`hours` defaults to 24 and `limit` to 1 at the HTTP layer. -/
def get_nan_analysis (o : DBOutcome) (db : List NanRow) (now : Int)
    (node : Option String) (hours : Int) (lim : Nat) :
    Except HTTPException (List NanRow) × ConnTrace :=
  match node with
  | none => (.error ⟨422, "Field required: node"⟩, ⟨0, 0, 0⟩)
  | some n => execute_query o (nanAnalysisQuery db now n hours lim)

/-! ## General lemmas about the infrastructure layer -/

theorem execute_query_ok_eq {ρ : Type} (rows : List ρ) :
    execute_query .ok rows = (.ok rows, ⟨1, 1, 1⟩) := rfl

theorem execute_query_connFail_eq {ρ : Type} (msg : String) (rows : List ρ) :
    execute_query (.connFail msg) rows =
      (.error ⟨500, "Database connection error: " ++ msg⟩, ⟨0, 0, 0⟩) := rfl

theorem execute_query_queryFail_eq {ρ : Type} (msg : String) (rows : List ρ) :
    execute_query (.queryFail msg) rows =
      (.error ⟨500, "Query execution error: " ++ msg⟩, ⟨1, 1, 1⟩) := rfl

/-- The two 500 detail prefixes are mutually exclusive: no detail string can
carry both. -/
theorem connPrefix_ne_queryPrefix (m1 m2 : String) :
    "Database connection error: " ++ m1 ≠ "Query execution error: " ++ m2 := by
  intro h
  have h2 := congrArg String.data h
  simp [String.data_append] at h2

/-- C1: For every `node_id`, `GET /dead_nodes/latest` returns the single
record with the maximum surrogate `id` among `dead_nodes` rows whose
`node_id` matches, and fails with 404 when no row matches. -/
theorem get_latest_dead_node_correct (db : List DeadNodeRow) (nid : String) :
    (∀ r, (get_latest_dead_node .ok db (some nid)).1 = .ok r →
      r ∈ db ∧ r.node_id = nid ∧ ∀ s ∈ db, s.node_id = nid → s.id ≤ r.id) ∧
    ((¬ ∃ s ∈ db, s.node_id = nid) →
      (get_latest_dead_node .ok db (some nid)).1 =
        .error ⟨404, "No data found for node_id: " ++ nid⟩) ∧
    ((∃ s ∈ db, s.node_id = nid) →
      ∃ r, (get_latest_dead_node .ok db (some nid)).1 = .ok r) := by
  have hperm := List.perm_insertionSort idDescRel (db.filter (fun r => r.node_id == nid))
  rcases hL : (db.filter (fun r => r.node_id == nid)).insertionSort idDescRel with _ | ⟨r, t⟩
  · rw [hL] at hperm
    have hfil : db.filter (fun r => r.node_id == nid) = [] := hperm.symm.eq_nil
    have hres : (get_latest_dead_node .ok db (some nid)).1 =
        .error ⟨404, "No data found for node_id: " ++ nid⟩ := by
      simp [get_latest_dead_node, execute_query, get_db_connection,
        latestDeadNodeQuery, hL]
    refine ⟨?_, fun _ => hres, ?_⟩
    · intro r hr
      rw [hres] at hr
      exact absurd hr (by simp)
    · rintro ⟨s, hs, hsn⟩
      have : s ∈ db.filter (fun r => r.node_id == nid) :=
        List.mem_filter.mpr ⟨hs, by simp [hsn]⟩
      rw [hfil] at this
      exact absurd this (List.not_mem_nil s)
  · rw [hL] at hperm
    have hrfil : r ∈ db.filter (fun x => x.node_id == nid) :=
      hperm.mem_iff.mp (List.mem_cons_self r t)
    have hrdb : r ∈ db := (List.mem_filter.mp hrfil).1
    have hrnid : r.node_id = nid := by
      have := (List.mem_filter.mp hrfil).2
      simpa using this
    have hsorted : List.Sorted idDescRel (r :: t) := by
      have := List.sorted_insertionSort idDescRel (db.filter (fun x => x.node_id == nid))
      rwa [hL] at this
    have hmax : ∀ s ∈ db, s.node_id = nid → s.id ≤ r.id := by
      intro s hs hsn
      have hsf : s ∈ db.filter (fun x => x.node_id == nid) :=
        List.mem_filter.mpr ⟨hs, by simp [hsn]⟩
      have hsl : s ∈ r :: t := hperm.mem_iff.mpr hsf
      rcases List.mem_cons.mp hsl with h | h
      · exact h ▸ le_refl _
      · exact List.rel_of_sorted_cons hsorted s h
    have hres : (get_latest_dead_node .ok db (some nid)).1 = .ok r := by
      simp [get_latest_dead_node, execute_query, get_db_connection,
        latestDeadNodeQuery, hL]
    refine ⟨?_, ?_, fun _ => ⟨r, hres⟩⟩
    · intro r' hr'
      rw [hres] at hr'
      have : r = r' := by
        injection hr'
      exact this ▸ ⟨hrdb, hrnid, hmax⟩
    · intro hno
      exact absurd ⟨r, hrdb, hrnid⟩ hno

/-- Witness for C1 at the spec's example scenario: two rows with ids 1 and 2
for node `n1`; the returned row is the id-2 row and it dominates both. -/
theorem get_latest_dead_node_correct_witness :
    (⟨2, "n1", some "search", -1800⟩ : DeadNodeRow) ∈
      [(⟨1, "n1", some "search", -3600⟩ : DeadNodeRow),
       ⟨2, "n1", some "search", -1800⟩] ∧
    (⟨2, "n1", some "search", -1800⟩ : DeadNodeRow).node_id = "n1" ∧
    ∀ s ∈ [(⟨1, "n1", some "search", -3600⟩ : DeadNodeRow),
           ⟨2, "n1", some "search", -1800⟩],
      s.node_id = "n1" → s.id ≤ (⟨2, "n1", some "search", -1800⟩ : DeadNodeRow).id :=
  (get_latest_dead_node_correct
    [⟨1, "n1", some "search", -3600⟩, ⟨2, "n1", some "search", -1800⟩] "n1").1
    ⟨2, "n1", some "search", -1800⟩ rfl

/-- C2: Every row returned by a time-windowed endpoint
(`/dead_nodes/by_vertical`, `/outlier_data`, `/frequency_analysis`,
`/nan_analysis`) has its time column `≥ now - hours`, so no row outside the
window is ever included; and the comparison is inclusive: a row exactly at
`now - hours` satisfies every window predicate and, for the uncapped
endpoints, is returned.  (For the `LIMIT`-capped endpoints the row caps of
C5/C6 may drop in-window rows, boundary or not.) -/
theorem windowed_endpoints_window (now hours : Int) :
    (∀ (db : List DeadNodeRow) (v : String) (rows : List DeadNodeRow),
      (get_dead_nodes_by_vertical .ok db now (some v) hours).1 = .ok rows →
      ∀ r ∈ rows, now - 3600 * hours ≤ r.timestamp) ∧
    (∀ (db : List OutlierRow) (nid : String) (rows : List OutlierRow),
      (get_outlier_data .ok db now (some nid) hours).1 = .ok rows →
      ∀ r ∈ rows, now - 3600 * hours ≤ r.timestamp_column) ∧
    (∀ (db : List FreqRow) (n : String) (rows : List FreqRow),
      (get_frequency_analysis .ok db now (some n) hours).1 = .ok rows →
      ∀ r ∈ rows, now - 3600 * hours ≤ r.timestamp) ∧
    (∀ (db : List NanRow) (n : String) (lim : Nat) (rows : List NanRow),
      (get_nan_analysis .ok db now (some n) hours lim).1 = .ok rows →
      ∀ r ∈ rows, now - 3600 * hours ≤ r.timestamp_column) ∧
    (∀ (db : List OutlierRow) (nid : String) (r : OutlierRow),
      r ∈ db → r.node_id = nid → r.timestamp_column = now - 3600 * hours →
      ∀ rows, (get_outlier_data .ok db now (some nid) hours).1 = .ok rows →
        r ∈ rows) ∧
    (∀ (db : List FreqRow) (n : String) (r : FreqRow),
      r ∈ db → r.node = n → r.timestamp = now - 3600 * hours →
      ∀ rows, (get_frequency_analysis .ok db now (some n) hours).1 = .ok rows →
        r ∈ rows) ∧
    (∀ (v : String) (r : DeadNodeRow),
      r.vertical_name = some v → r.timestamp = now - 3600 * hours →
      deadNodeInWindow now v hours r = true) ∧
    (∀ (n : String) (r : NanRow),
      r.node = n → r.timestamp_column = now - 3600 * hours →
      nanInWindow now n hours r = true) := by
  refine ⟨?_, ?_, ?_, ?_, ?_, ?_, ?_, ?_⟩
  · intro db v rows hrows r hr
    have heq : deadNodesByVerticalQuery db now v hours = rows := by
      simpa [get_dead_nodes_by_vertical, execute_query, get_db_connection]
        using hrows
    subst heq
    have h1 : r ∈ (db.filter (deadNodeInWindow now v hours)).insertionSort idDescRel :=
      List.mem_of_mem_take hr
    have h2 : r ∈ db.filter (deadNodeInWindow now v hours) :=
      (List.perm_insertionSort idDescRel _).mem_iff.mp h1
    have h3 := (List.mem_filter.mp h2).2
    simp only [deadNodeInWindow, Bool.and_eq_true, decide_eq_true_eq] at h3
    exact h3.2
  · intro db nid rows hrows r hr
    have heq : outlierDataQuery db now nid hours = rows := by
      simpa [get_outlier_data, execute_query, get_db_connection] using hrows
    subst heq
    have h3 := (List.mem_filter.mp hr).2
    simp only [outlierInWindow, Bool.and_eq_true, decide_eq_true_eq] at h3
    exact h3.2
  · intro db n rows hrows r hr
    have heq : frequencyAnalysisQuery db now n hours = rows := by
      simpa [get_frequency_analysis, execute_query, get_db_connection] using hrows
    subst heq
    have h3 := (List.mem_filter.mp hr).2
    simp only [freqInWindow, Bool.and_eq_true, decide_eq_true_eq] at h3
    exact h3.2
  · intro db n lim rows hrows r hr
    have heq : nanAnalysisQuery db now n hours lim = rows := by
      simpa [get_nan_analysis, execute_query, get_db_connection] using hrows
    subst heq
    have h1 : r ∈ db.filter (nanInWindow now n hours) := List.mem_of_mem_take hr
    have h3 := (List.mem_filter.mp h1).2
    simp only [nanInWindow, Bool.and_eq_true, decide_eq_true_eq] at h3
    exact h3.2
  · intro db nid r hdb hnode hts rows hrows
    have heq : outlierDataQuery db now nid hours = rows := by
      simpa [get_outlier_data, execute_query, get_db_connection] using hrows
    subst heq
    exact List.mem_filter.mpr ⟨hdb, by simp [outlierInWindow, hnode, hts]⟩
  · intro db n r hdb hnode hts rows hrows
    have heq : frequencyAnalysisQuery db now n hours = rows := by
      simpa [get_frequency_analysis, execute_query, get_db_connection] using hrows
    subst heq
    exact List.mem_filter.mpr ⟨hdb, by simp [freqInWindow, hnode, hts]⟩
  · intro v r hv hts
    simp [deadNodeInWindow, hv, hts]
  · intro n r hn hts
    simp [nanInWindow, hn, hts]

/-- Witness for C2: at `now = 0`, `hours = 1`, a boundary row at
timestamp `-3600` is returned by `/outlier_data` while a row at `-7200`
is filtered out. -/
theorem windowed_endpoints_window_witness :
    (⟨"n", -3600⟩ : OutlierRow) ∈ [(⟨"n", -3600⟩ : OutlierRow)] :=
  (windowed_endpoints_window 0 1).2.2.2.2.1
    [⟨"n", -3600⟩, ⟨"n", -7200⟩] "n" ⟨"n", -3600⟩
    (by simp) rfl (by decide) [⟨"n", -3600⟩] rfl

/-- C3 counterexample: FastAPI's `node_id : str` only rejects an *absent*
parameter; the empty string is a valid value.  With `node_id = ""` the
handler executes a database query (the trace records one query) and can
even answer 200 with a row, refuting "missing or empty fails with a 4xx
validation error and no database query is executed". -/
theorem empty_param_counterexample :
    (get_latest_dead_node .ok [⟨1, "", none, 0⟩] (some "")).2.queried = 1 ∧
    (get_latest_dead_node .ok [⟨1, "", none, 0⟩] (some "")).1 =
      .ok ⟨1, "", none, 0⟩ :=
  ⟨rfl, rfl⟩

/-- C3 (amended): a request whose required string parameter is *missing*
fails with a 422 client validation error and executes no database query
(trace `⟨0,0,0⟩`), on every data-returning endpoint and under every
database outcome; a supplied *empty string*, however, passes validation
and the query executes. -/
theorem missing_param_validation :
    (∀ (o : DBOutcome) (db : List DeadNodeRow),
      get_latest_dead_node o db none =
        (.error ⟨422, "Field required: node_id"⟩, ⟨0, 0, 0⟩)) ∧
    (∀ (o : DBOutcome) (db : List DeadNodeRow) (now hours : Int),
      get_dead_nodes_by_vertical o db now none hours =
        (.error ⟨422, "Field required: vertical_name"⟩, ⟨0, 0, 0⟩)) ∧
    (∀ (o : DBOutcome) (db : List OutlierRow) (now hours : Int),
      get_outlier_data o db now none hours =
        (.error ⟨422, "Field required: node_id"⟩, ⟨0, 0, 0⟩)) ∧
    (∀ (o : DBOutcome) (db : List FreqRow) (now hours : Int),
      get_frequency_analysis o db now none hours =
        (.error ⟨422, "Field required: node"⟩, ⟨0, 0, 0⟩)) ∧
    (∀ (o : DBOutcome) (db : List NanRow) (now hours : Int) (lim : Nat),
      get_nan_analysis o db now none hours lim =
        (.error ⟨422, "Field required: node"⟩, ⟨0, 0, 0⟩)) ∧
    (∀ (db : List DeadNodeRow),
      (get_latest_dead_node .ok db (some "")).2.queried = 1) ∧
    (∀ (db : List DeadNodeRow) (now hours : Int),
      (get_dead_nodes_by_vertical .ok db now (some "") hours).2.queried = 1) := by
  refine ⟨fun _ _ => rfl, fun _ _ _ _ => rfl, fun _ _ _ _ => rfl,
    fun _ _ _ _ => rfl, fun _ _ _ _ _ => rfl, ?_, fun _ _ _ => rfl⟩
  intro db
  rcases hq : latestDeadNodeQuery db "" with _ | ⟨r, t⟩ <;>
    simp [get_latest_dead_node, execute_query, get_db_connection, hq]

/-- C4: on every data-returning endpoint, a connection failure or a query
failure surfaces as a 500 whose detail is the fixed prefix followed by the
underlying database error message verbatim; the result is an error, so no
(partial) row sequence is returned. -/
theorem db_failure_yields_500_verbatim (msg : String) :
    (∀ (db : List DeadNodeRow) (nid : String),
      (get_latest_dead_node (.connFail msg) db (some nid)).1 =
        .error ⟨500, "Database connection error: " ++ msg⟩ ∧
      (get_latest_dead_node (.queryFail msg) db (some nid)).1 =
        .error ⟨500, "Query execution error: " ++ msg⟩) ∧
    (∀ (db : List DeadNodeRow),
      (get_vertical_names (.connFail msg) db).1 =
        .error ⟨500, "Database connection error: " ++ msg⟩ ∧
      (get_vertical_names (.queryFail msg) db).1 =
        .error ⟨500, "Query execution error: " ++ msg⟩) ∧
    (∀ (db : List DeadNodeRow) (now : Int) (v : String) (hours : Int),
      (get_dead_nodes_by_vertical (.connFail msg) db now (some v) hours).1 =
        .error ⟨500, "Database connection error: " ++ msg⟩ ∧
      (get_dead_nodes_by_vertical (.queryFail msg) db now (some v) hours).1 =
        .error ⟨500, "Query execution error: " ++ msg⟩) ∧
    (∀ (db : List OutlierRow) (now : Int) (nid : String) (hours : Int),
      (get_outlier_data (.connFail msg) db now (some nid) hours).1 =
        .error ⟨500, "Database connection error: " ++ msg⟩ ∧
      (get_outlier_data (.queryFail msg) db now (some nid) hours).1 =
        .error ⟨500, "Query execution error: " ++ msg⟩) ∧
    (∀ (db : List FreqRow) (now : Int) (n : String) (hours : Int),
      (get_frequency_analysis (.connFail msg) db now (some n) hours).1 =
        .error ⟨500, "Database connection error: " ++ msg⟩ ∧
      (get_frequency_analysis (.queryFail msg) db now (some n) hours).1 =
        .error ⟨500, "Query execution error: " ++ msg⟩) ∧
    (∀ (db : List NanRow) (now : Int) (n : String) (hours : Int) (lim : Nat),
      (get_nan_analysis (.connFail msg) db now (some n) hours lim).1 =
        .error ⟨500, "Database connection error: " ++ msg⟩ ∧
      (get_nan_analysis (.queryFail msg) db now (some n) hours lim).1 =
        .error ⟨500, "Query execution error: " ++ msg⟩) ∧
    (∀ (ρ : Type) (rows rs : List ρ),
      (execute_query (.connFail msg) rows).1 ≠ .ok rs ∧
      (execute_query (.queryFail msg) rows).1 ≠ .ok rs) :=
  ⟨fun _ _ => ⟨rfl, rfl⟩, fun _ => ⟨rfl, rfl⟩, fun _ _ _ _ => ⟨rfl, rfl⟩,
   fun _ _ _ _ => ⟨rfl, rfl⟩, fun _ _ _ _ => ⟨rfl, rfl⟩,
   fun _ _ _ _ _ => ⟨rfl, rfl⟩,
   fun _ _ _ => ⟨fun h => by simp [execute_query, get_db_connection] at h,
                 fun h => by simp [execute_query, get_db_connection] at h⟩⟩

/-- Witness for C4 at a concrete failure: connection failure "boom" on
`/dead_nodes/latest` yields the 500 with the verbatim message. -/
theorem db_failure_yields_500_verbatim_witness :
    (get_latest_dead_node (.connFail "boom") [] (some "x")).1 =
      .error ⟨500, "Database connection error: " ++ "boom"⟩ :=
  ((db_failure_yields_500_verbatim "boom").1 [] "x").1

/-- C5: `/dead_nodes/by_vertical` returns at most 100 records, ordered by
strictly descending surrogate id (strictness uses that `id` is a surrogate
key, i.e. no two rows of the table share an id). -/
theorem by_vertical_cap_and_order (db : List DeadNodeRow) (now : Int)
    (v : String) (hours : Int) :
    (∀ rows, (get_dead_nodes_by_vertical .ok db now (some v) hours).1 = .ok rows →
      rows.length ≤ 100) ∧
    ((db.map (·.id)).Nodup →
      ∀ rows, (get_dead_nodes_by_vertical .ok db now (some v) hours).1 = .ok rows →
      rows.Pairwise (fun a b => b.id < a.id)) := by
  constructor
  · intro rows hrows
    have heq : deadNodesByVerticalQuery db now v hours = rows := by
      simpa [get_dead_nodes_by_vertical, execute_query, get_db_connection]
        using hrows
    subst heq
    exact List.length_take_le 100 _
  · intro hnd rows hrows
    have heq : deadNodesByVerticalQuery db now v hours = rows := by
      simpa [get_dead_nodes_by_vertical, execute_query, get_db_connection]
        using hrows
    subst heq
    have hsorted :
        List.Pairwise idDescRel
          ((db.filter (deadNodeInWindow now v hours)).insertionSort idDescRel) :=
      List.sorted_insertionSort idDescRel _
    have hge : List.Pairwise idDescRel (deadNodesByVerticalQuery db now v hours) :=
      hsorted.sublist (List.take_sublist _ _)
    have hnd1 : ((db.filter (deadNodeInWindow now v hours)).map (·.id)).Nodup :=
      hnd.sublist ((List.filter_sublist db).map (·.id))
    have hnd2 :
        (((db.filter (deadNodeInWindow now v hours)).insertionSort idDescRel).map
          (·.id)).Nodup :=
      (((List.perm_insertionSort idDescRel _).map (·.id)).nodup_iff).mpr hnd1
    have hnd3 : ((deadNodesByVerticalQuery db now v hours).map (·.id)).Nodup := by
      show ((((db.filter (deadNodeInWindow now v hours)).insertionSort
          idDescRel).take 100).map (·.id)).Nodup
      exact hnd2.sublist ((List.take_sublist 100 _).map (fun r : DeadNodeRow => r.id))
    have hne : List.Pairwise (fun a b : DeadNodeRow => a.id ≠ b.id)
        (deadNodesByVerticalQuery db now v hours) := by
      rw [List.Nodup, List.pairwise_map] at hnd3
      exact hnd3
    exact (hge.and hne).imp fun h => lt_of_le_of_ne h.1 fun hc => h.2 hc.symm

/-- Witness for C5: two in-window rows with ids 1 and 2 come back as
`[id 2, id 1]`: at most 100 rows and strictly descending. -/
theorem by_vertical_cap_and_order_witness :
    ([(⟨2, "a", some "v", 0⟩ : DeadNodeRow), ⟨1, "a", some "v", 0⟩].length ≤ 100) ∧
    List.Pairwise (fun a b : DeadNodeRow => b.id < a.id)
      [(⟨2, "a", some "v", 0⟩ : DeadNodeRow), ⟨1, "a", some "v", 0⟩] :=
  ⟨(by_vertical_cap_and_order
      [⟨1, "a", some "v", 0⟩, ⟨2, "a", some "v", 0⟩] 0 "v" 1).1
      [⟨2, "a", some "v", 0⟩, ⟨1, "a", some "v", 0⟩] rfl,
   (by_vertical_cap_and_order
      [⟨1, "a", some "v", 0⟩, ⟨2, "a", some "v", 0⟩] 0 "v" 1).2 (by decide)
      [⟨2, "a", some "v", 0⟩, ⟨1, "a", some "v", 0⟩] rfl⟩

/-- C6: `/nan_analysis` returns at most `limit` records; when more rows
match than `limit`, exactly `limit` rows come back; with the default
`limit = 1` at most one record is returned. -/
theorem nan_analysis_limit_cap (db : List NanRow) (now : Int) (node : String)
    (hours : Int) (lim : Nat) :
    (∀ rows, (get_nan_analysis .ok db now (some node) hours lim).1 = .ok rows →
      rows.length ≤ lim ∧
      (lim < (db.filter (nanInWindow now node hours)).length →
        rows.length = lim)) ∧
    (∀ rows, (get_nan_analysis .ok db now (some node) hours 1).1 = .ok rows →
      rows.length ≤ 1) := by
  constructor
  · intro rows hrows
    have heq : nanAnalysisQuery db now node hours lim = rows := by
      simpa [get_nan_analysis, execute_query, get_db_connection] using hrows
    subst heq
    rw [nanAnalysisQuery, List.length_take]
    omega
  · intro rows hrows
    have heq : nanAnalysisQuery db now node hours 1 = rows := by
      simpa [get_nan_analysis, execute_query, get_db_connection] using hrows
    subst heq
    rw [nanAnalysisQuery, List.length_take]
    omega

/-- Witness for C6 at the spec's example: 10 matching rows, `limit = 5`,
exactly 5 rows returned. -/
theorem nan_analysis_limit_cap_witness :
    (List.replicate 5 (⟨"x", 0⟩ : NanRow)).length = 5 :=
  ((nan_analysis_limit_cap (List.replicate 10 ⟨"x", 0⟩) 0 "x" 24 5).1
    (List.replicate 5 ⟨"x", 0⟩) rfl).2 (by decide)

/-- Characterisation of the truthiness filter: it yields `some s` exactly
when the column value was the non-null, non-empty string `s`. -/
theorem truthyVertical_eq_some (v : Option String) (s : String) :
    truthyVertical v = some s ↔ v = some s ∧ s ≠ "" := by
  constructor
  · intro h
    cases v with
    | none => exact absurd h (by simp [truthyVertical])
    | some t =>
      simp only [truthyVertical] at h
      split at h
      · exact absurd h (by simp)
      · rename_i ht
        injection h with h
        subst h
        exact ⟨rfl, ht⟩
  · rintro ⟨rfl, hne⟩
    simp only [truthyVertical]
    rw [if_neg hne]

/-- C7: the strings returned by `/dead_nodes/verticals` contain no
null-derived entry (each comes from a non-null column value), no
empty-string entry, and no duplicates. -/
theorem verticals_no_null_empty_dup (db : List DeadNodeRow) :
    ∀ vs, (get_vertical_names .ok db).1 = .ok vs →
      vs.Nodup ∧ "" ∉ vs ∧ ∀ s ∈ vs, some s ∈ db.map (·.vertical_name) := by
  intro vs hvs
  have heq : (verticalsQuery db).filterMap truthyVertical = vs := by
    simpa [get_vertical_names, execute_query, get_db_connection] using hvs
  subst heq
  refine ⟨?_, ?_, ?_⟩
  · refine List.Nodup.filterMap ?_ (List.nodup_dedup _)
    intro a a' b hb hb'
    rw [Option.mem_def, truthyVertical_eq_some] at hb hb'
    rw [hb.1, hb'.1]
  · intro hmem
    rcases List.mem_filterMap.mp hmem with ⟨v, _, hg⟩
    exact ((truthyVertical_eq_some v "").mp hg).2 rfl
  · intro s hs
    rcases List.mem_filterMap.mp hs with ⟨v, hv, hg⟩
    have hvm : v ∈ db.map (·.vertical_name) := List.mem_dedup.mp hv
    exact ((truthyVertical_eq_some v s).mp hg).1 ▸ hvm

/-- Witness for C7: a table with a NULL vertical, an empty vertical and a
duplicated vertical yields just `["v"]`. -/
theorem verticals_no_null_empty_dup_witness :
    (["v"] : List String).Nodup ∧ "" ∉ (["v"] : List String) ∧
    ∀ s ∈ (["v"] : List String),
      some s ∈ ([(⟨1, "a", none, 0⟩ : DeadNodeRow), ⟨2, "b", some "", 0⟩,
                 ⟨3, "c", some "v", 0⟩, ⟨4, "d", some "v", 0⟩]).map
        (·.vertical_name) :=
  verticals_no_null_empty_dup
    [⟨1, "a", none, 0⟩, ⟨2, "b", some "", 0⟩, ⟨3, "c", some "v", 0⟩,
     ⟨4, "d", some "v", 0⟩] ["v"] rfl

/-- C9: `/nan_analysis` with `limit = 0` succeeds and returns the empty
sequence, whatever the table contents, because the caller-supplied limit
is bound directly into the SQL `LIMIT` clause. -/
theorem nan_analysis_limit_zero (db : List NanRow) (now : Int) (node : String)
    (hours : Int) :
    get_nan_analysis .ok db now (some node) hours 0 = (.ok [], ⟨1, 1, 1⟩) := rfl

/-- C8: every request that reaches the database opens exactly one fresh
connection, runs exactly one query on it and closes it unconditionally, on
the success path and on the query-failure path alike (trace `⟨1,1,1⟩`);
and after any request, on every path, the number of connections opened
equals the number closed, so no connection stays open. -/
theorem connection_lifecycle :
    (∀ (m : String) (db : List DeadNodeRow) (nid : String),
      (get_latest_dead_node .ok db (some nid)).2 = ⟨1, 1, 1⟩ ∧
      (get_latest_dead_node (.queryFail m) db (some nid)).2 = ⟨1, 1, 1⟩) ∧
    (∀ (m : String) (db : List DeadNodeRow),
      (get_vertical_names .ok db).2 = ⟨1, 1, 1⟩ ∧
      (get_vertical_names (.queryFail m) db).2 = ⟨1, 1, 1⟩) ∧
    (∀ (m : String) (db : List DeadNodeRow) (now : Int) (v : String) (hours : Int),
      (get_dead_nodes_by_vertical .ok db now (some v) hours).2 = ⟨1, 1, 1⟩ ∧
      (get_dead_nodes_by_vertical (.queryFail m) db now (some v) hours).2 = ⟨1, 1, 1⟩) ∧
    (∀ (m : String) (db : List OutlierRow) (now : Int) (nid : String) (hours : Int),
      (get_outlier_data .ok db now (some nid) hours).2 = ⟨1, 1, 1⟩ ∧
      (get_outlier_data (.queryFail m) db now (some nid) hours).2 = ⟨1, 1, 1⟩) ∧
    (∀ (m : String) (db : List FreqRow) (now : Int) (n : String) (hours : Int),
      (get_frequency_analysis .ok db now (some n) hours).2 = ⟨1, 1, 1⟩ ∧
      (get_frequency_analysis (.queryFail m) db now (some n) hours).2 = ⟨1, 1, 1⟩) ∧
    (∀ (m : String) (db : List NanRow) (now : Int) (n : String) (hours : Int) (lim : Nat),
      (get_nan_analysis .ok db now (some n) hours lim).2 = ⟨1, 1, 1⟩ ∧
      (get_nan_analysis (.queryFail m) db now (some n) hours lim).2 = ⟨1, 1, 1⟩) ∧
    (∀ (o : DBOutcome) (db : List DeadNodeRow) (p : Option String),
      (get_latest_dead_node o db p).2.opened = (get_latest_dead_node o db p).2.closed) ∧
    (∀ (o : DBOutcome) (db : List DeadNodeRow),
      (get_vertical_names o db).2.opened = (get_vertical_names o db).2.closed) ∧
    (∀ (o : DBOutcome) (db : List DeadNodeRow) (now : Int) (p : Option String) (hours : Int),
      (get_dead_nodes_by_vertical o db now p hours).2.opened =
        (get_dead_nodes_by_vertical o db now p hours).2.closed) ∧
    (∀ (o : DBOutcome) (db : List OutlierRow) (now : Int) (p : Option String) (hours : Int),
      (get_outlier_data o db now p hours).2.opened =
        (get_outlier_data o db now p hours).2.closed) ∧
    (∀ (o : DBOutcome) (db : List FreqRow) (now : Int) (p : Option String) (hours : Int),
      (get_frequency_analysis o db now p hours).2.opened =
        (get_frequency_analysis o db now p hours).2.closed) ∧
    (∀ (o : DBOutcome) (db : List NanRow) (now : Int) (p : Option String) (hours : Int) (lim : Nat),
      (get_nan_analysis o db now p hours lim).2.opened =
        (get_nan_analysis o db now p hours lim).2.closed) := by
  refine ⟨?_, fun _ _ => ⟨rfl, rfl⟩, fun _ _ _ _ _ => ⟨rfl, rfl⟩,
    fun _ _ _ _ _ => ⟨rfl, rfl⟩, fun _ _ _ _ _ => ⟨rfl, rfl⟩,
    fun _ _ _ _ _ _ => ⟨rfl, rfl⟩, ?_, ?_, ?_, ?_, ?_, ?_⟩
  · intro m db nid
    constructor
    · rcases hq : latestDeadNodeQuery db nid with _ | ⟨r, t⟩ <;>
        simp [get_latest_dead_node, execute_query, get_db_connection, hq]
    · rfl
  · intro o db p
    cases p with
    | none => rfl
    | some nid =>
      cases o with
      | connFail m => rfl
      | queryFail m => rfl
      | ok =>
        rcases hq : latestDeadNodeQuery db nid with _ | ⟨r, t⟩ <;>
          simp [get_latest_dead_node, execute_query, get_db_connection, hq]
  · intro o db
    cases o <;> rfl
  · intro o db now p hours
    cases p <;> cases o <;> rfl
  · intro o db now p hours
    cases p <;> cases o <;> rfl
  · intro o db now p hours
    cases p <;> cases o <;> rfl
  · intro o db now p hours lim
    cases p <;> cases o <;> rfl

/-- Witness for C8 (the only conjuncts with hypotheses are universally
quantified equations, but we exhibit the trace at a concrete request
anyway): one opened, one queried, one closed on a successful request. -/
theorem connection_lifecycle_witness :
    (get_latest_dead_node .ok [] (some "x")).2 = (⟨1, 1, 1⟩ : ConnTrace) :=
  (connection_lifecycle.1 "m" [] "x").1

/-- C10: every 500 raised by the service carries a detail beginning with
exactly one of the two prefixes: `"Database connection error: "` when
opening the connection failed, `"Query execution error: "` when executing
the query failed; the two prefixes are mutually exclusive, so the caller
can tell the failure points apart from the response body. -/
theorem error_500_prefix_dichotomy :
    (∀ (o : DBOutcome) (db : List DeadNodeRow) (p : Option String) (e : HTTPException),
      (get_latest_dead_node o db p).1 = .error e → e.status_code = 500 →
      (∃ m, o = .connFail m ∧ e.detail = "Database connection error: " ++ m) ∨
      (∃ m, o = .queryFail m ∧ e.detail = "Query execution error: " ++ m)) ∧
    (∀ (o : DBOutcome) (db : List DeadNodeRow) (e : HTTPException),
      (get_vertical_names o db).1 = .error e → e.status_code = 500 →
      (∃ m, o = .connFail m ∧ e.detail = "Database connection error: " ++ m) ∨
      (∃ m, o = .queryFail m ∧ e.detail = "Query execution error: " ++ m)) ∧
    (∀ (o : DBOutcome) (db : List DeadNodeRow) (now : Int) (p : Option String)
        (hours : Int) (e : HTTPException),
      (get_dead_nodes_by_vertical o db now p hours).1 = .error e → e.status_code = 500 →
      (∃ m, o = .connFail m ∧ e.detail = "Database connection error: " ++ m) ∨
      (∃ m, o = .queryFail m ∧ e.detail = "Query execution error: " ++ m)) ∧
    (∀ (o : DBOutcome) (db : List OutlierRow) (now : Int) (p : Option String)
        (hours : Int) (e : HTTPException),
      (get_outlier_data o db now p hours).1 = .error e → e.status_code = 500 →
      (∃ m, o = .connFail m ∧ e.detail = "Database connection error: " ++ m) ∨
      (∃ m, o = .queryFail m ∧ e.detail = "Query execution error: " ++ m)) ∧
    (∀ (o : DBOutcome) (db : List FreqRow) (now : Int) (p : Option String)
        (hours : Int) (e : HTTPException),
      (get_frequency_analysis o db now p hours).1 = .error e → e.status_code = 500 →
      (∃ m, o = .connFail m ∧ e.detail = "Database connection error: " ++ m) ∨
      (∃ m, o = .queryFail m ∧ e.detail = "Query execution error: " ++ m)) ∧
    (∀ (o : DBOutcome) (db : List NanRow) (now : Int) (p : Option String)
        (hours : Int) (lim : Nat) (e : HTTPException),
      (get_nan_analysis o db now p hours lim).1 = .error e → e.status_code = 500 →
      (∃ m, o = .connFail m ∧ e.detail = "Database connection error: " ++ m) ∨
      (∃ m, o = .queryFail m ∧ e.detail = "Query execution error: " ++ m)) ∧
    (∀ m1 m2 : String,
      "Database connection error: " ++ m1 ≠ "Query execution error: " ++ m2) := by
  refine ⟨?_, ?_, ?_, ?_, ?_, ?_, connPrefix_ne_queryPrefix⟩
  · intro o db p e h h500
    cases p with
    | none =>
      simp only [get_latest_dead_node, Except.error.injEq] at h
      rw [← h] at h500
      exact absurd h500 (by decide)
    | some nid =>
      cases o with
      | connFail m =>
        simp only [get_latest_dead_node, execute_query, get_db_connection,
          Except.error.injEq] at h
        exact .inl ⟨m, rfl, by rw [← h]⟩
      | queryFail m =>
        simp only [get_latest_dead_node, execute_query, get_db_connection,
          Except.error.injEq] at h
        exact .inr ⟨m, rfl, by rw [← h]⟩
      | ok =>
        exfalso
        rcases hq : latestDeadNodeQuery db nid with _ | ⟨r, t⟩
        · simp only [get_latest_dead_node, execute_query, get_db_connection, hq,
            Except.error.injEq] at h
          rw [← h] at h500
          simp at h500
        · simp only [get_latest_dead_node, execute_query, get_db_connection, hq] at h
          exact Except.noConfusion h
  · intro o db e h h500
    cases o with
    | connFail m =>
      simp only [get_vertical_names, execute_query, get_db_connection,
        Except.error.injEq] at h
      exact .inl ⟨m, rfl, by rw [← h]⟩
    | queryFail m =>
      simp only [get_vertical_names, execute_query, get_db_connection,
        Except.error.injEq] at h
      exact .inr ⟨m, rfl, by rw [← h]⟩
    | ok =>
      exact absurd h (by simp [get_vertical_names, execute_query, get_db_connection])
  · intro o db now p hours e h h500
    cases p with
    | none =>
      simp only [get_dead_nodes_by_vertical, Except.error.injEq] at h
      rw [← h] at h500
      exact absurd h500 (by decide)
    | some v =>
      cases o with
      | connFail m =>
        simp only [get_dead_nodes_by_vertical, execute_query, get_db_connection,
          Except.error.injEq] at h
        exact .inl ⟨m, rfl, by rw [← h]⟩
      | queryFail m =>
        simp only [get_dead_nodes_by_vertical, execute_query, get_db_connection,
          Except.error.injEq] at h
        exact .inr ⟨m, rfl, by rw [← h]⟩
      | ok =>
        exact absurd h
          (by simp [get_dead_nodes_by_vertical, execute_query, get_db_connection])
  · intro o db now p hours e h h500
    cases p with
    | none =>
      simp only [get_outlier_data, Except.error.injEq] at h
      rw [← h] at h500
      exact absurd h500 (by decide)
    | some nid =>
      cases o with
      | connFail m =>
        simp only [get_outlier_data, execute_query, get_db_connection,
          Except.error.injEq] at h
        exact .inl ⟨m, rfl, by rw [← h]⟩
      | queryFail m =>
        simp only [get_outlier_data, execute_query, get_db_connection,
          Except.error.injEq] at h
        exact .inr ⟨m, rfl, by rw [← h]⟩
      | ok =>
        exact absurd h (by simp [get_outlier_data, execute_query, get_db_connection])
  · intro o db now p hours e h h500
    cases p with
    | none =>
      simp only [get_frequency_analysis, Except.error.injEq] at h
      rw [← h] at h500
      exact absurd h500 (by decide)
    | some n =>
      cases o with
      | connFail m =>
        simp only [get_frequency_analysis, execute_query, get_db_connection,
          Except.error.injEq] at h
        exact .inl ⟨m, rfl, by rw [← h]⟩
      | queryFail m =>
        simp only [get_frequency_analysis, execute_query, get_db_connection,
          Except.error.injEq] at h
        exact .inr ⟨m, rfl, by rw [← h]⟩
      | ok =>
        exact absurd h
          (by simp [get_frequency_analysis, execute_query, get_db_connection])
  · intro o db now p hours lim e h h500
    cases p with
    | none =>
      simp only [get_nan_analysis, Except.error.injEq] at h
      rw [← h] at h500
      exact absurd h500 (by decide)
    | some n =>
      cases o with
      | connFail m =>
        simp only [get_nan_analysis, execute_query, get_db_connection,
          Except.error.injEq] at h
        exact .inl ⟨m, rfl, by rw [← h]⟩
      | queryFail m =>
        simp only [get_nan_analysis, execute_query, get_db_connection,
          Except.error.injEq] at h
        exact .inr ⟨m, rfl, by rw [← h]⟩
      | ok =>
        exact absurd h (by simp [get_nan_analysis, execute_query, get_db_connection])

/-- Witness for C10: a concrete query failure on `/dead_nodes/latest`
falls into the query-execution branch of the dichotomy. -/
theorem error_500_prefix_dichotomy_witness :
    (∃ m, (DBOutcome.queryFail "q") = .connFail m ∧
      (HTTPException.mk 500 "Query execution error: q").detail =
        "Database connection error: " ++ m) ∨
    (∃ m, (DBOutcome.queryFail "q") = .queryFail m ∧
      (HTTPException.mk 500 "Query execution error: q").detail =
        "Query execution error: " ++ m) :=
  error_500_prefix_dichotomy.1 (.queryFail "q") [] (some "x")
    ⟨500, "Query execution error: q"⟩ rfl rfl
